import Mathlib

/-!
# Link registration and flow-control relay of `AudioSink`

A shallow embedding of `src/svxlink/svxlink/AudioSink.cpp`.

* Objects live in a heap (`World`): every sink object has its `m_source`
  pointer, every source object its reverse pointer.  A pointer is an
  `Option`: `none` is the null pointer `0`.
* The member functions of `AudioSink` are state transformers on the heap.
  Calls through `m_source->...` go through an explicit `deref`, which faults
  on the null pointer.
* `AudioSource` is only declared in `AudioSource.h`, which is not among the
  sources.  The functions `registerSink` and `unregisterSink` of a source are
  taken as a parameter (`Sources`, the dispatch table of the source objects);
  the mirrored implementation of the specification is given separately.  The
  two notifications `resumeOutput` and `allSamplesFlushed` are modelled from
  the specification: they return and leave the heap as it is.
* Every call a sink makes on a source is appended to `World.log`.
-/

namespace Svx

/-- Address of an `AudioSink` object. -/
abbrev SinkId := Nat

/-- Address of an `AudioSource` object. -/
abbrev SourceId := Nat

/-- A call made on a source object (`source->op(...)`). -/
inductive Call where
  | registerSink (source : SourceId) (sink : SinkId)
  | unregisterSink (source : SourceId)
  | resumeOutput (source : SourceId)
  | allSamplesFlushed (source : SourceId)
  deriving DecidableEq, Repr

/-- Ways in which a call does not return normally. -/
inductive Fault where
  /-- A member function was called through the null pointer. -/
  | nullDeref
  /-- The call depth allotted to a source of `mirrored` was used up. -/
  | outOfFuel
  deriving DecidableEq, Repr

/-- The heap: the pointer members of all sink and source objects, and the
log of the calls made on sources so far. -/
structure World where
  /-- The member `AudioSink::m_source` of every sink object. -/
  m_source : SinkId → Option SourceId
  /-- The reverse pointer of every source object to its linked sink. -/
  m_sink : SourceId → Option SinkId
  /-- The calls made on source objects, oldest first. -/
  log : List Call

/-- Every object unlinked, nothing called yet. -/
def World.init : World :=
  { m_source := fun _ => none, m_sink := fun _ => none, log := [] }

/-- The assignment `m_source = p` in the sink object `self`. -/
def World.setSource (w : World) (self : SinkId) (p : Option SourceId) : World :=
  { w with m_source := fun s => if s = self then p else w.m_source s }

/-- The assignment of `p` to the reverse pointer of the source object `self`. -/
def World.setSink (w : World) (self : SourceId) (p : Option SinkId) : World :=
  { w with m_sink := fun a => if a = self then p else w.m_sink a }

/-- Append a call on a source to the log. -/
def World.record (w : World) (c : Call) : World :=
  { w with log := w.log ++ [c] }

/-- The dereference in `p->f(...)`: the object pointed to, or a fault when `p` is null. -/
def deref (p : Option SourceId) : Except Fault SourceId :=
  match p with
  | some a => .ok a
  | none => .error .nullDeref

/-- Dispatch table of the source objects for the two link functions declared
in `AudioSource.h`: what `source->registerSink(sink)` and
`source->unregisterSink()` do to the heap, for every source object. -/
structure Sources where
  /-- The function `bool AudioSource::registerSink(AudioSink *sink)` of the object `source`. -/
  registerSink : (source : SourceId) → (sink : SinkId) → World → Except Fault (World × Bool)
  /-- The function `void AudioSource::unregisterSink(void)` of the object `source`. -/
  unregisterSink : (source : SourceId) → World → Except Fault World

/-- Modelled from the spec: `AudioSource::resumeOutput` is declared in
`AudioSource.h`, which is not among the sources.  The specification (4.2, 6)
describes it as a void notification that is infallible for the caller, and the
link state machine (4.1) has no transition on a relay call: the call returns
and leaves the link state as it is. -/
def AudioSource.resumeOutput (_self : SourceId) (w : World) : Except Fault World :=
  .ok w

/-- Modelled from the spec: `AudioSource::allSamplesFlushed` is declared in
`AudioSource.h`, which is not among the sources.  The specification (4.2, 6)
describes it as a void notification that is infallible for the caller, and the
link state machine (4.1) has no transition on a relay call: the call returns
and leaves the link state as it is. -/
def AudioSource.allSamplesFlushed (_self : SourceId) (w : World) : Except Fault World :=
  .ok w

/-- The function `bool AudioSink::registerSource(AudioSource *source)` on the sink object `self`. -/
def AudioSink.registerSource (P : Sources) (self : SinkId) (source : Option SourceId)
    (w : World) : Except Fault (World × Bool) :=
  if w.m_source self ≠ none then
    .ok (w, decide (w.m_source self = source))
  else
    let w1 := w.setSource self source
    match deref (w1.m_source self) with
    | .error e => .error e
    | .ok a =>
      match P.registerSink a self (w1.record (.registerSink a self)) with
      | .error e => .error e
      | .ok (w2, accepted) =>
        if !accepted then
          .ok (w2.setSource self none, false)
        else
          .ok (w2, true)

/-- The function `void AudioSink::unregisterSource(void)` on the sink object `self`. -/
def AudioSink.unregisterSource (P : Sources) (self : SinkId) (w : World) : Except Fault World :=
  if w.m_source self = none then
    .ok w
  else
    let source := w.m_source self
    let w1 := w.setSource self none
    match deref source with
    | .error e => .error e
    | .ok a => P.unregisterSink a (w1.record (.unregisterSink a))

/-- The function `void AudioSink::sourceResumeOutput(void)` on the sink object `self`. -/
def AudioSink.sourceResumeOutput (self : SinkId) (w : World) : Except Fault World :=
  if w.m_source self ≠ none then
    match deref (w.m_source self) with
    | .error e => .error e
    | .ok a => AudioSource.resumeOutput a (w.record (.resumeOutput a))
  else
    .ok w

/-- The function `void AudioSink::sourceAllSamplesFlushed(void)` on the sink object `self`. -/
def AudioSink.sourceAllSamplesFlushed (self : SinkId) (w : World) : Except Fault World :=
  if w.m_source self ≠ none then
    match deref (w.m_source self) with
    | .error e => .error e
    | .ok a => AudioSource.allSamplesFlushed a (w.record (.allSamplesFlushed a))
  else
    .ok w

/-- Modelled from the spec: `AudioSource::registerSink` is not among the
sources.  The specification (4.1, 6) gives it the contract of
`registerSource` with the roles swapped: when already linked, success exactly
when the candidate is the current link; when unlinked, store the sink
tentatively, call back `sink->registerSource(this)`, and roll back when that
is refused.  `Q` is the dispatch table the call back runs with. -/
def AudioSource.registerSink (Q : Sources) (self : SourceId) (sink : SinkId)
    (w : World) : Except Fault (World × Bool) :=
  if w.m_sink self ≠ none then
    .ok (w, decide (w.m_sink self = some sink))
  else
    let w1 := w.setSink self (some sink)
    match AudioSink.registerSource Q sink (some self) w1 with
    | .error e => .error e
    | .ok (w2, accepted) =>
      if !accepted then
        .ok (w2.setSink self none, false)
      else
        .ok (w2, true)

/-- Modelled from the spec: `AudioSource::unregisterSink` is not among the
sources.  The specification (4.1, 6) gives it the contract of
`unregisterSource` with the roles swapped: nothing when unlinked; otherwise
clear the own sink pointer, then call back `sink->unregisterSource()`.  `Q` is
the dispatch table the call back runs with. -/
def AudioSource.unregisterSink (Q : Sources) (self : SourceId) (w : World) : Except Fault World :=
  match w.m_sink self with
  | none => .ok w
  | some sink => AudioSink.unregisterSource Q sink (w.setSink self none)

/-- A system in which every source object follows the mirrored contract.  The
number bounds the depth of calls from a sink into a source; a call beyond it
faults with `outOfFuel`. -/
def mirrored : Nat → Sources
  | 0 =>
    { registerSink := fun _ _ _ => .error .outOfFuel
      unregisterSink := fun _ _ => .error .outOfFuel }
  | n + 1 =>
    { registerSink := AudioSource.registerSink (mirrored n)
      unregisterSink := AudioSource.unregisterSink (mirrored n) }

/-- A system in which every source refuses `registerSink` and ignores
`unregisterSink`, touching nothing. -/
def refusing : Sources :=
  { registerSink := fun _ _ w => .ok (w, false)
    unregisterSink := fun _ w => .ok w }

/-- Call `f` on the heap `n` times in a row, stopping at the first fault. -/
def callTimes (f : World → Except Fault World) : Nat → World → Except Fault World
  | 0, w => .ok w
  | n + 1, w =>
    match f w with
    | .error e => .error e
    | .ok w1 => callTimes f n w1

/-- The heap in which sink `s` and source `a` are linked to each other and
every other object is unlinked. -/
def World.linkedPair (s : SinkId) (a : SourceId) : World :=
  (World.init.setSource s (some a)).setSink a (some s)

/-- An operation a caller makes on a sink object. -/
inductive Op where
  | registerSource (sink : SinkId) (source : Option SourceId)
  | unregisterSource (sink : SinkId)
  | sourceResumeOutput (sink : SinkId)
  | sourceAllSamplesFlushed (sink : SinkId)
  deriving DecidableEq, Repr

/-- Make one call on a sink; the boolean of `registerSource` is dropped. -/
def Op.call (P : Sources) (op : Op) (w : World) : Except Fault World :=
  match op with
  | .registerSource s a =>
    match AudioSink.registerSource P s a w with
    | .error e => .error e
    | .ok (w1, _) => .ok w1
  | .unregisterSource s => AudioSink.unregisterSource P s w
  | .sourceResumeOutput s => AudioSink.sourceResumeOutput s w
  | .sourceAllSamplesFlushed s => AudioSink.sourceAllSamplesFlushed s w

/-- Make a sequence of calls, each one after the previous one has returned,
stopping at the first fault. -/
def run (P : Sources) : List Op → World → Except Fault World
  | [], w => .ok w
  | op :: ops, w =>
    match op.call P w with
    | .error e => .error e
    | .ok w1 => run P ops w1

/-- The call passes no null pointer as the candidate source. -/
def Op.nonNull : Op → Bool
  | .registerSource _ none => false
  | _ => true

/-- The link invariant: a sink points at a source exactly when that source
points back at the sink. -/
def World.Symmetric (w : World) : Prop :=
  ∀ (S : SinkId) (A : SourceId), w.m_source S = some A ↔ w.m_sink A = some S

/-! ## Registration -/

/-- C1 (symmetry): on an unlinked sink `S`, with an unlinked source `A` whose
`registerSink` is the mirrored one, `S.registerSource(A)` returns true, and
afterwards the linked source of `S` is `A` and the linked sink of `A` is `S`.
The call makes exactly one call on a source, `A.registerSink(S)`. -/
theorem C1_registerSource_symmetry (P Q : Sources) (S : SinkId) (A : SourceId) (w : World)
    (hS : w.m_source S = none) (hA : w.m_sink A = none)
    (hmirror : P.registerSink A = AudioSource.registerSink Q A) :
    ∃ w', AudioSink.registerSource P S (some A) w = .ok (w', true)
      ∧ w'.m_source S = some A ∧ w'.m_sink A = some S
      ∧ w'.log = w.log ++ [Call.registerSink A S] := by
  refine ⟨((w.setSource S (some A)).record (.registerSink A S)).setSink A (some S), ?_, ?_, ?_, ?_⟩
  · simp [AudioSink.registerSource, AudioSource.registerSink, hS, hA, hmirror, deref,
      World.setSource, World.setSink, World.record]
  · simp [World.setSource, World.setSink, World.record]
  · simp [World.setSource, World.setSink, World.record]
  · simp [World.setSource, World.setSink, World.record]

/-- Witness of C1: sink 0 and source 1 of the initial heap, all sources mirrored. -/
theorem C1_registerSource_symmetry_witness :
    ∃ w', AudioSink.registerSource (mirrored 1) 0 (some 1) World.init = .ok (w', true)
      ∧ w'.m_source 0 = some 1 ∧ w'.m_sink 1 = some 0
      ∧ w'.log = World.init.log ++ [Call.registerSink 1 0] :=
  C1_registerSource_symmetry (mirrored 1) (mirrored 0) 0 1 World.init rfl rfl rfl

/-- C2 (rejection without mutation): on a sink `S` whose linked source is `A`,
`S.registerSource(B)` with `B` different from `A` returns false and leaves the
whole heap as it was: `S` is still linked to `A`, the log of calls on sources
is unchanged (nothing is invoked on `B`), and the state of `B` is unchanged. -/
theorem C2_registerSource_rejects_other (P : Sources) (S : SinkId) (A B : SourceId) (w : World)
    (hS : w.m_source S = some A) (hB : B ≠ A) :
    AudioSink.registerSource P S (some B) w = .ok (w, false) := by
  have h : ¬ A = B := fun h => hB h.symm
  simp [AudioSink.registerSource, hS, h]

/-- Witness of C2: sink 0 linked to source 1, candidate source 2. -/
theorem C2_registerSource_rejects_other_witness :
    AudioSink.registerSource refusing 0 (some 2) (World.linkedPair 0 1)
      = .ok (World.linkedPair 0 1, false) :=
  C2_registerSource_rejects_other refusing 0 1 2 (World.linkedPair 0 1) rfl (by decide)

/-- C3 (rollback on peer refusal): on an unlinked sink `S`, when the call
`candidate.registerSink(S)` made by `S.registerSource(candidate)` returns
false, `registerSource` returns false and the sink is unlinked afterwards, as
it was before the call; the heap is the one the peer left, with `m_source` of
`S` cleared. -/
theorem C3_registerSource_rollback (P : Sources) (S : SinkId) (candidate : SourceId)
    (w w2 : World) (hS : w.m_source S = none)
    (hrefuse : P.registerSink candidate S
        ((w.setSource S (some candidate)).record (.registerSink candidate S)) = .ok (w2, false)) :
    ∃ w', AudioSink.registerSource P S (some candidate) w = .ok (w', false)
      ∧ w' = w2.setSource S none
      ∧ w'.m_source S = none ∧ w'.m_source S = w.m_source S := by
  refine ⟨w2.setSource S none, ?_, rfl, ?_, ?_⟩
  · have h1 : (w.setSource S (some candidate)).m_source S = some candidate := by
      simp [World.setSource]
    simp [AudioSink.registerSource, hS, h1, deref, hrefuse]
  · simp [World.setSource]
  · simp [World.setSource, hS]

/-- Witness of C3: sink 0 of the initial heap, source 1 refusing. -/
theorem C3_registerSource_rollback_witness :
    ∃ w', AudioSink.registerSource refusing 0 (some 1) World.init = .ok (w', false)
      ∧ w' = ((World.init.setSource 0 (some 1)).record (.registerSink 1 0)).setSource 0 none
      ∧ w'.m_source 0 = none ∧ w'.m_source 0 = World.init.m_source 0 :=
  C3_registerSource_rollback refusing 0 1 World.init
    ((World.init.setSource 0 (some 1)).record (.registerSink 1 0)) rfl rfl

/-- C4 (idempotent re-registration): on a sink `S` whose linked source is `A`,
`S.registerSource(A)` returns true and leaves the whole heap as it was: the
linked source is still `A` and the log of calls on sources is unchanged (no
call of `A.registerSink` nor of anything else).  Hence two calls in a row both
return true and leave the one link as it is. -/
theorem C4_registerSource_idempotent (P : Sources) (S : SinkId) (A : SourceId) (w : World)
    (hS : w.m_source S = some A) :
    AudioSink.registerSource P S (some A) w = .ok (w, true)
      ∧ (AudioSink.registerSource P S (some A) w >>= fun r =>
          AudioSink.registerSource P S (some A) r.1 >>= fun r2 =>
            pure (r.2, r2.2, r2.1)) = .ok (true, true, w) := by
  have h : AudioSink.registerSource P S (some A) w = .ok (w, true) := by
    simp [AudioSink.registerSource, hS]
  refine ⟨h, ?_⟩
  rw [h]
  show (AudioSink.registerSource P S (some A) w >>= fun r2 => pure (true, r2.2, r2.1)) = _
  rw [h]
  rfl

/-- Witness of C4: sink 0 linked to source 1. -/
theorem C4_registerSource_idempotent_witness :
    AudioSink.registerSource refusing 0 (some 1) (World.linkedPair 0 1)
        = .ok (World.linkedPair 0 1, true)
      ∧ (AudioSink.registerSource refusing 0 (some 1) (World.linkedPair 0 1) >>= fun r =>
          AudioSink.registerSource refusing 0 (some 1) r.1 >>= fun r2 =>
            pure (r.2, r2.2, r2.1)) = .ok (true, true, World.linkedPair 0 1) :=
  C4_registerSource_idempotent refusing 0 1 (World.linkedPair 0 1) rfl

/-! ## Unregistration -/

/-- C5 (clean teardown): on a sink `S` linked to a source `A` (each points at
the other) whose `unregisterSink` is the mirrored one, `S.unregisterSource()`
returns, and afterwards both `S` and `A` are unlinked.  The call back
`S.unregisterSource()` made by `A` runs on the final heap and leaves it as it
is, and the log grows by the one call `A.unregisterSink()`. -/
theorem C5_unregisterSource_teardown (P Q : Sources) (S : SinkId) (A : SourceId) (w : World)
    (hS : w.m_source S = some A) (hA : w.m_sink A = some S)
    (hmirror : P.unregisterSink A = AudioSource.unregisterSink Q A) :
    ∃ w', AudioSink.unregisterSource P S w = .ok w'
      ∧ w' = ((w.setSource S none).record (.unregisterSink A)).setSink A none
      ∧ w'.m_source S = none ∧ w'.m_sink A = none
      ∧ w'.log = w.log ++ [Call.unregisterSink A]
      ∧ AudioSink.unregisterSource Q S w' = .ok w' := by
  refine ⟨((w.setSource S none).record (.unregisterSink A)).setSink A none, ?_, rfl, ?_, ?_, ?_, ?_⟩
  · simp [AudioSink.unregisterSource, AudioSource.unregisterSink, hS, hA, hmirror, deref,
      World.setSource, World.setSink, World.record]
  · simp [World.setSource, World.setSink, World.record]
  · simp [World.setSource, World.setSink, World.record]
  · simp [World.setSource, World.setSink, World.record]
  · simp [AudioSink.unregisterSource, World.setSource, World.setSink, World.record]

/-- Witness of C5: sink 0 and source 1 linked to each other, all sources mirrored. -/
theorem C5_unregisterSource_teardown_witness :
    ∃ w', AudioSink.unregisterSource (mirrored 1) 0 (World.linkedPair 0 1) = .ok w'
      ∧ w' = (((World.linkedPair 0 1).setSource 0 none).record (.unregisterSink 1)).setSink 1 none
      ∧ w'.m_source 0 = none ∧ w'.m_sink 1 = none
      ∧ w'.log = (World.linkedPair 0 1).log ++ [Call.unregisterSink 1]
      ∧ AudioSink.unregisterSource (mirrored 0) 0 w' = .ok w' :=
  C5_unregisterSource_teardown (mirrored 1) (mirrored 0) 0 1 (World.linkedPair 0 1) rfl rfl rfl

/-- C6 (no-op safety): on an unlinked sink `S`, each of `unregisterSource()`,
`sourceResumeOutput()` and `sourceAllSamplesFlushed()` returns and leaves the
whole heap as it was: `S` is still unlinked and the log of calls on sources is
unchanged. -/
theorem C6_unlinked_noop (P : Sources) (S : SinkId) (w : World) (hS : w.m_source S = none) :
    AudioSink.unregisterSource P S w = .ok w
      ∧ AudioSink.sourceResumeOutput S w = .ok w
      ∧ AudioSink.sourceAllSamplesFlushed S w = .ok w := by
  simp [AudioSink.unregisterSource, AudioSink.sourceResumeOutput,
    AudioSink.sourceAllSamplesFlushed, hS]

/-- Witness of C6: sink 0 of the initial heap; the dispatch table faults on every call. -/
theorem C6_unlinked_noop_witness :
    AudioSink.unregisterSource (mirrored 0) 0 World.init = .ok World.init
      ∧ AudioSink.sourceResumeOutput 0 World.init = .ok World.init
      ∧ AudioSink.sourceAllSamplesFlushed 0 World.init = .ok World.init :=
  C6_unlinked_noop (mirrored 0) 0 World.init rfl

/-! ## Flow-control relay -/

/-- One call of `sourceResumeOutput` on a sink linked to `A` logs one `resumeOutput` on `A`. -/
theorem sourceResumeOutput_linked (S : SinkId) (A : SourceId) (w : World)
    (hS : w.m_source S = some A) :
    AudioSink.sourceResumeOutput S w = .ok (w.record (.resumeOutput A)) := by
  simp [AudioSink.sourceResumeOutput, AudioSource.resumeOutput, hS, deref]

/-- C7 (relay forwarding without coalescing): on a sink `S` whose linked
source is `A`, `n` calls of `S.sourceResumeOutput()` in a row all return, the
log of calls on sources grows by exactly `n` entries `A.resumeOutput()` and by
nothing else, and all pointers are as before: `S` is still linked to `A`. -/
theorem C7_sourceResumeOutput_repeat (S : SinkId) (A : SourceId) (n : Nat) (w : World)
    (hS : w.m_source S = some A) :
    ∃ w', callTimes (AudioSink.sourceResumeOutput S) n w = .ok w'
      ∧ w'.log = w.log ++ List.replicate n (Call.resumeOutput A)
      ∧ w'.m_source = w.m_source ∧ w'.m_sink = w.m_sink
      ∧ w'.m_source S = some A := by
  induction n generalizing w with
  | zero => exact ⟨w, rfl, by simp, rfl, rfl, hS⟩
  | succ k ih =>
    obtain ⟨w', h1, h2, h3, h4, h5⟩ := ih (w.record (.resumeOutput A)) hS
    refine ⟨w', ?_, ?_, h3, h4, h5⟩
    · simp [callTimes, sourceResumeOutput_linked S A w hS, h1]
    · rw [h2]
      simp [World.record, List.replicate_succ]

/-- Witness of C7: three calls on sink 0 linked to source 1. -/
theorem C7_sourceResumeOutput_repeat_witness :
    ∃ w', callTimes (AudioSink.sourceResumeOutput 0) 3 (World.linkedPair 0 1) = .ok w'
      ∧ w'.log = (World.linkedPair 0 1).log ++ List.replicate 3 (Call.resumeOutput 1)
      ∧ w'.m_source = (World.linkedPair 0 1).m_source
      ∧ w'.m_sink = (World.linkedPair 0 1).m_sink
      ∧ w'.m_source 0 = some 1 :=
  C7_sourceResumeOutput_repeat 0 1 3 (World.linkedPair 0 1) rfl

/-- C8 (flush relay): on a sink `S` whose linked source is `A`,
`S.sourceAllSamplesFlushed()` returns the heap it was called on with the one
entry `A.allSamplesFlushed()` appended to the log of calls on sources, so no
other call is made and `S` is still linked to `A`; on an unlinked sink it
returns the heap unchanged, so the notification is dropped. -/
theorem C8_sourceAllSamplesFlushed_relay (S : SinkId) (w : World) :
    AudioSink.sourceAllSamplesFlushed S w =
      match w.m_source S with
      | some A => .ok (w.record (.allSamplesFlushed A))
      | none => .ok w := by
  cases h : w.m_source S <;>
    simp [AudioSink.sourceAllSamplesFlushed, AudioSource.allSamplesFlushed, h, deref]

/-! ## Failure causes -/

/-- On a linked sink `registerSource` only compares pointers. -/
theorem registerSource_of_linked (P : Sources) (S : SinkId) (cur : SourceId)
    (a : Option SourceId) (w : World) (hS : w.m_source S = some cur) :
    AudioSink.registerSource P S a w = .ok (w, decide (some cur = a)) := by
  simp [AudioSink.registerSource, hS]

/-- C9 (failure causes are exhaustive): for every sink `S`, heap and non-null
candidate, `S.registerSource(candidate)` returns false exactly when either
`S` is linked to a source different from the candidate, or `S` is unlinked and
the call `candidate.registerSink(S)` it makes returns false.  It returns true
exactly when `S` is linked to the candidate, or `S` is unlinked and that call
returns true; and it fails to return only when `S` is unlinked and that call
fails to return. -/
theorem C9_registerSource_failure_causes (P : Sources) (S : SinkId) (candidate : SourceId)
    (w : World) :
    ((∃ w', AudioSink.registerSource P S (some candidate) w = .ok (w', false)) ↔
        ((∃ cur, w.m_source S = some cur ∧ cur ≠ candidate)
          ∨ (w.m_source S = none
              ∧ ∃ w2, P.registerSink candidate S
                  ((w.setSource S (some candidate)).record (.registerSink candidate S))
                    = .ok (w2, false))))
      ∧ ((∃ w', AudioSink.registerSource P S (some candidate) w = .ok (w', true)) ↔
        (w.m_source S = some candidate
          ∨ (w.m_source S = none
              ∧ ∃ w2, P.registerSink candidate S
                  ((w.setSource S (some candidate)).record (.registerSink candidate S))
                    = .ok (w2, true))))
      ∧ (∀ e, AudioSink.registerSource P S (some candidate) w = .error e ↔
        (w.m_source S = none
          ∧ P.registerSink candidate S
              ((w.setSource S (some candidate)).record (.registerSink candidate S))
                = .error e)) := by
  cases hS : w.m_source S with
  | some cur =>
    have h := registerSource_of_linked P S cur (some candidate) w hS
    rw [h]
    by_cases hc : cur = candidate <;> simp [hc]
  | none =>
    have h1 : (w.setSource S (some candidate)).m_source S = some candidate := by
      simp [World.setSource]
    cases hp : P.registerSink candidate S
        ((w.setSource S (some candidate)).record (.registerSink candidate S)) with
    | error e =>
      have h : AudioSink.registerSource P S (some candidate) w = .error e := by
        simp [AudioSink.registerSource, hS, h1, deref, hp]
      rw [h]
      simp
    | ok res =>
      obtain ⟨w2, accepted⟩ := res
      cases accepted with
      | false =>
        have h : AudioSink.registerSource P S (some candidate) w
            = .ok (w2.setSource S none, false) := by
          simp [AudioSink.registerSource, hS, h1, deref, hp]
        rw [h]
        simp
      | true =>
        have h : AudioSink.registerSource P S (some candidate) w = .ok (w2, true) := by
          simp [AudioSink.registerSource, hS, h1, deref, hp]
        rw [h]
        simp

/-! ## The link invariant -/

/-- On an unlinked sink `registerSource` of the null pointer faults. -/
theorem registerSource_null (P : Sources) (S : SinkId) (w : World) (hS : w.m_source S = none) :
    AudioSink.registerSource P S none w = .error .nullDeref := by
  simp [AudioSink.registerSource, hS, World.setSource, deref]

/-- A mirrored source that is linked to another sink refuses, and the sink rolls back. -/
theorem registerSource_mirrored_busy (n : Nat) (S S2 : SinkId) (A : SourceId) (w : World)
    (hS : w.m_source S = none) (hA : w.m_sink A = some S2) (hne : S2 ≠ S) :
    AudioSink.registerSource (mirrored (n + 1)) S (some A) w
      = .ok (((w.setSource S (some A)).record (.registerSink A S)).setSource S none, false) := by
  simp [AudioSink.registerSource, AudioSource.registerSink, mirrored, hS, hA, hne, deref,
    World.setSource, World.record]

/-- A mirrored source that is unlinked accepts, and both pointers are set. -/
theorem registerSource_mirrored_free (n : Nat) (S : SinkId) (A : SourceId) (w : World)
    (hS : w.m_source S = none) (hA : w.m_sink A = none) :
    AudioSink.registerSource (mirrored (n + 1)) S (some A) w
      = .ok (((w.setSource S (some A)).record (.registerSink A S)).setSink A (some S), true) := by
  simp [AudioSink.registerSource, AudioSource.registerSink, mirrored, hS, hA, deref,
    World.setSource, World.setSink, World.record]

/-- A mirrored source linked back to the sink is cleared by `unregisterSource`. -/
theorem unregisterSource_mirrored (n : Nat) (S : SinkId) (A : SourceId) (w : World)
    (hS : w.m_source S = some A) (hA : w.m_sink A = some S) :
    AudioSink.unregisterSource (mirrored (n + 1)) S w
      = .ok (((w.setSource S none).record (.unregisterSink A)).setSink A none) := by
  simp [AudioSink.unregisterSource, AudioSource.unregisterSink, mirrored, hS, hA, deref,
    World.setSource, World.setSink, World.record]

/-- The roll back of a refused registration keeps the invariant. -/
theorem symmetric_rollback (S : SinkId) (A : SourceId) (c : Call) (w : World)
    (hinv : w.Symmetric) (hS : w.m_source S = none) :
    (((w.setSource S (some A)).record c).setSource S none).Symmetric := by
  intro x B
  have h := hinv x B
  by_cases hx : x = S
  · subst hx
    simp [World.setSource, World.record]
    rw [← h, hS]
    simp
  · simpa [World.setSource, World.record, hx] using h

/-- Linking an unlinked sink and an unlinked source keeps the invariant. -/
theorem symmetric_link (S : SinkId) (A : SourceId) (c : Call) (w : World)
    (hinv : w.Symmetric) (hS : w.m_source S = none) (hA : w.m_sink A = none) :
    (((w.setSource S (some A)).record c).setSink A (some S)).Symmetric := by
  intro x B
  have h := hinv x B
  by_cases hx : x = S <;> by_cases hB : B = A
  · subst hx; subst hB
    simp [World.setSource, World.setSink, World.record]
  · subst hx
    have h2 : ¬ A = B := fun e => hB e.symm
    simp [World.setSource, World.setSink, World.record, hB, h2]
    rw [← h, hS]
    simp
  · subst hB
    have h2 : ¬ S = x := fun e => hx e.symm
    simp [World.setSource, World.setSink, World.record, hx, h2]
    rw [h, hA]
    simp
  · simpa [World.setSource, World.setSink, World.record, hx, hB] using h

/-- Clearing both pointers of a link keeps the invariant. -/
theorem symmetric_unlink (S : SinkId) (A : SourceId) (c : Call) (w : World)
    (hinv : w.Symmetric) (hS : w.m_source S = some A) :
    (((w.setSource S none).record c).setSink A none).Symmetric := by
  intro x B
  have h := hinv x B
  have hA : w.m_sink A = some S := (hinv S A).1 hS
  by_cases hx : x = S <;> by_cases hB : B = A
  · subst hx; subst hB
    simp [World.setSource, World.setSink, World.record]
  · subst hx
    simp [World.setSource, World.setSink, World.record, hB]
    rw [← h, hS]
    simpa using fun e : A = B => hB e.symm
  · subst hB
    simp [World.setSource, World.setSink, World.record, hx]
    rw [h, hA]
    simpa using fun e : S = x => hx e.symm
  · simpa [World.setSource, World.setSink, World.record, hx, hB] using h

/-- Appending to the log keeps the invariant. -/
theorem symmetric_record (c : Call) (w : World) (hinv : w.Symmetric) :
    (w.record c).Symmetric := by
  intro x B
  simpa [World.record] using hinv x B

/-- One call on a sink in a mirrored system, from a heap with the invariant:
either it returns a heap with the invariant, or it is `registerSource` of the
null pointer and faults with `nullDeref`. -/
theorem call_mirrored (n : Nat) (op : Op) (w : World) (hinv : w.Symmetric) :
    (∃ w', op.call (mirrored (n + 1)) w = .ok w' ∧ w'.Symmetric)
      ∨ (op.nonNull = false ∧ op.call (mirrored (n + 1)) w = .error .nullDeref) := by
  cases op with
  | registerSource S a =>
    cases hS : w.m_source S with
    | some cur =>
      left
      exact ⟨w, by simp [Op.call, registerSource_of_linked _ S cur a w hS], hinv⟩
    | none =>
      cases a with
      | none =>
        right
        exact ⟨rfl, by simp [Op.call, registerSource_null _ S w hS]⟩
      | some A =>
        left
        cases hA : w.m_sink A with
        | none =>
          exact ⟨((w.setSource S (some A)).record (.registerSink A S)).setSink A (some S),
            by simp [Op.call, registerSource_mirrored_free n S A w hS hA],
            symmetric_link S A _ w hinv hS hA⟩
        | some S2 =>
          have hne : S2 ≠ S := by
            intro e
            subst e
            rw [(hinv S2 A).2 hA] at hS
            exact Option.noConfusion hS
          exact ⟨((w.setSource S (some A)).record (.registerSink A S)).setSource S none,
            by simp [Op.call, registerSource_mirrored_busy n S S2 A w hS hA hne],
            symmetric_rollback S A _ w hinv hS⟩
  | unregisterSource S =>
    left
    cases hS : w.m_source S with
    | none => exact ⟨w, by simp [Op.call, AudioSink.unregisterSource, hS], hinv⟩
    | some A =>
      exact ⟨((w.setSource S none).record (.unregisterSink A)).setSink A none,
        by simp [Op.call, unregisterSource_mirrored n S A w hS ((hinv S A).1 hS)],
        symmetric_unlink S A _ w hinv hS⟩
  | sourceResumeOutput S =>
    left
    cases hS : w.m_source S with
    | none => exact ⟨w, by simp [Op.call, AudioSink.sourceResumeOutput, hS], hinv⟩
    | some A =>
      exact ⟨w.record (.resumeOutput A),
        by simp [Op.call, sourceResumeOutput_linked S A w hS],
        symmetric_record _ w hinv⟩
  | sourceAllSamplesFlushed S =>
    left
    cases hS : w.m_source S with
    | none => exact ⟨w, by simp [Op.call, AudioSink.sourceAllSamplesFlushed, hS], hinv⟩
    | some A =>
      exact ⟨w.record (.allSamplesFlushed A),
        by simp [Op.call, AudioSink.sourceAllSamplesFlushed, AudioSource.allSamplesFlushed,
          hS, deref],
        symmetric_record _ w hinv⟩

/-- A sequence of calls in a mirrored system, from a heap with the invariant:
a heap it returns has the invariant, and it returns when no candidate is null. -/
theorem run_mirrored (n : Nat) (ops : List Op) (w : World) (hinv : w.Symmetric) :
    (∀ w', run (mirrored (n + 1)) ops w = .ok w' → w'.Symmetric)
      ∧ ((∀ op ∈ ops, op.nonNull = true) → ∃ w', run (mirrored (n + 1)) ops w = .ok w') := by
  induction ops generalizing w with
  | nil =>
    refine ⟨?_, fun _ => ⟨w, rfl⟩⟩
    intro w' h
    simp [run] at h
    subst h
    exact hinv
  | cons op ops ih =>
    rcases call_mirrored n op w hinv with ⟨w1, h1, hinv1⟩ | ⟨hnull, herr⟩
    · obtain ⟨ihA, ihB⟩ := ih w1 hinv1
      refine ⟨?_, ?_⟩
      · intro w' h
        simp [run, h1] at h
        exact ihA w' h
      · intro hops
        obtain ⟨w', h⟩ := ihB (fun o ho => hops o (List.mem_cons_of_mem _ ho))
        exact ⟨w', by simp [run, h1, h]⟩
    · refine ⟨?_, ?_⟩
      · intro w' h
        simp [run, herr] at h
      · intro hops
        have := hops op (List.mem_cons_self _ _)
        rw [hnull] at this
        exact absurd this (by decide)

/-- C10 (link invariant): in a system of sinks and mirrored sources, starting
with every object unlinked, after any finite sequence of calls of
`registerSource`, `unregisterSource`, `sourceResumeOutput` and
`sourceAllSamplesFlushed` (on any sinks, with any candidates) that have all
returned, for every sink `S` and source `A` the linked source of `S` is `A`
exactly when the linked sink of `A` is `S`; hence no two sinks are linked to
one source and no two sources to one sink.  Every such sequence whose
candidates are all non-null does return. -/
theorem C10_link_invariant (n : Nat) (ops : List Op) :
    (∀ w, run (mirrored (n + 1)) ops World.init = .ok w →
        (∀ (S : SinkId) (A : SourceId), w.m_source S = some A ↔ w.m_sink A = some S)
        ∧ (∀ (S S2 : SinkId) (A : SourceId),
            w.m_source S = some A → w.m_source S2 = some A → S = S2)
        ∧ (∀ (A A2 : SourceId) (S : SinkId),
            w.m_sink A = some S → w.m_sink A2 = some S → A = A2))
      ∧ ((∀ op ∈ ops, op.nonNull = true) →
          ∃ w, run (mirrored (n + 1)) ops World.init = .ok w) := by
  have hinit : World.init.Symmetric := by
    intro S A
    simp [World.init]
  obtain ⟨hA, hB⟩ := run_mirrored n ops World.init hinit
  refine ⟨?_, hB⟩
  intro w hw
  have hsym := hA w hw
  refine ⟨hsym, ?_, ?_⟩
  · intro S S2 A h1 h2
    have e1 := (hsym S A).1 h1
    have e2 := (hsym S2 A).1 h2
    rw [e1] at e2
    exact Option.some.inj e2
  · intro A A2 S h1 h2
    have e1 := (hsym S A).2 h1
    have e2 := (hsym S A2).2 h2
    rw [e1] at e2
    exact Option.some.inj e2

/-- Witness of C10: a sequence of calls on sinks 0 and 2 with sources 1 and 2
returns and leaves every link two-sided. -/
theorem C10_link_invariant_witness :
    ∃ w, run (mirrored 1)
        [.registerSource 0 (some 1), .registerSource 2 (some 1), .sourceResumeOutput 0,
          .registerSource 2 (some 2), .unregisterSource 0, .sourceAllSamplesFlushed 2]
        World.init = .ok w
      ∧ (∀ (S : SinkId) (A : SourceId), w.m_source S = some A ↔ w.m_sink A = some S) := by
  obtain ⟨w, hw⟩ := (C10_link_invariant 0
    [.registerSource 0 (some 1), .registerSource 2 (some 1), .sourceResumeOutput 0,
      .registerSource 2 (some 2), .unregisterSource 0, .sourceAllSamplesFlushed 2]).2
    (by decide)
  exact ⟨w, hw, ((C10_link_invariant 0 _).1 w hw).1⟩

/-! ## Scenario -/

/-- C11 (scenario trace): from a heap in which sink `S` and source `A` are
unlinked, in a system of mirrored sources, with `B` different from `A`:
`registerSource(A)` returns true, `registerSource(A)` again returns true,
`registerSource(B)` returns false, and the heap after each of these three
calls is the same one, with `S` linked to `A` (and `A` to `S`); then
`unregisterSource()` returns with both `S` and `A` unlinked; then
`sourceResumeOutput()` returns the heap unchanged.  The log of calls on
sources has grown by `A.registerSink(S)` and `A.unregisterSink()` only, so no
`resumeOutput` reached `A`. -/
theorem C11_scenario (n : Nat) (S : SinkId) (A B : SourceId) (w : World)
    (hS : w.m_source S = none) (hA : w.m_sink A = none) (hAB : A ≠ B) :
    ∃ w1 w2,
      AudioSink.registerSource (mirrored (n + 1)) S (some A) w = .ok (w1, true)
      ∧ w1.m_source S = some A ∧ w1.m_sink A = some S
      ∧ AudioSink.registerSource (mirrored (n + 1)) S (some A) w1 = .ok (w1, true)
      ∧ AudioSink.registerSource (mirrored (n + 1)) S (some B) w1 = .ok (w1, false)
      ∧ AudioSink.unregisterSource (mirrored (n + 1)) S w1 = .ok w2
      ∧ w2.m_source S = none ∧ w2.m_sink A = none
      ∧ AudioSink.sourceResumeOutput S w2 = .ok w2
      ∧ w2.log = w.log ++ [Call.registerSink A S, Call.unregisterSink A]
      ∧ Call.resumeOutput A ∉ [Call.registerSink A S, Call.unregisterSink A] := by
  have hs1 : (((w.setSource S (some A)).record (.registerSink A S)).setSink A (some S)).m_source S
      = some A := by
    simp [World.setSource, World.setSink, World.record]
  have ha1 : (((w.setSource S (some A)).record (.registerSink A S)).setSink A (some S)).m_sink A
      = some S := by
    simp [World.setSource, World.setSink, World.record]
  refine ⟨((w.setSource S (some A)).record (.registerSink A S)).setSink A (some S),
    ((((w.setSource S (some A)).record (.registerSink A S)).setSink A (some S)).setSource S
      none |>.record (.unregisterSink A)).setSink A none,
    registerSource_mirrored_free n S A w hS hA, hs1, ha1, ?_, ?_,
    unregisterSource_mirrored n S A _ hs1 ha1, ?_, ?_, ?_, ?_, ?_⟩
  · rw [registerSource_of_linked _ S A (some A) _ hs1]
    simp
  · rw [registerSource_of_linked _ S A (some B) _ hs1]
    simp [hAB]
  · simp [World.setSource, World.setSink, World.record]
  · simp [World.setSource, World.setSink, World.record]
  · simp [AudioSink.sourceResumeOutput, World.setSource, World.setSink, World.record]
  · simp [World.setSource, World.setSink, World.record]
  · simp

/-- Witness of C11: sink 0, sources 1 and 2, from the initial heap. -/
theorem C11_scenario_witness :
    ∃ w1 w2,
      AudioSink.registerSource (mirrored 1) 0 (some 1) World.init = .ok (w1, true)
      ∧ w1.m_source 0 = some 1 ∧ w1.m_sink 1 = some 0
      ∧ AudioSink.registerSource (mirrored 1) 0 (some 1) w1 = .ok (w1, true)
      ∧ AudioSink.registerSource (mirrored 1) 0 (some 2) w1 = .ok (w1, false)
      ∧ AudioSink.unregisterSource (mirrored 1) 0 w1 = .ok w2
      ∧ w2.m_source 0 = none ∧ w2.m_sink 1 = none
      ∧ AudioSink.sourceResumeOutput 0 w2 = .ok w2
      ∧ w2.log = World.init.log ++ [Call.registerSink 1 0, Call.unregisterSink 1]
      ∧ Call.resumeOutput 1 ∉ [Call.registerSink 1 0, Call.unregisterSink 1] :=
  C11_scenario 0 0 1 2 World.init rfl rfl (by decide)

/-! ## Order of the calls -/

/-- C12 (teardown order): on a sink `S` whose linked source is `A`, for any
behaviour of the sources, `S.unregisterSource()` is the one call
`A.unregisterSink()` made on the heap in which `m_source` of `S` is already
null, no other pointer has changed, and the log has grown by that one call;
whatever that call returns is the result.  So the source that was linked
before the call is the one invoked, once, and it sees `S` unlinked. -/
theorem C12_unregisterSource_order (P : Sources) (S : SinkId) (A : SourceId) (w : World)
    (hS : w.m_source S = some A) :
    AudioSink.unregisterSource P S w
        = P.unregisterSink A ((w.setSource S none).record (.unregisterSink A))
      ∧ ((w.setSource S none).record (.unregisterSink A)).m_source S = none
      ∧ (∀ S2, S2 ≠ S →
          ((w.setSource S none).record (.unregisterSink A)).m_source S2 = w.m_source S2)
      ∧ ((w.setSource S none).record (.unregisterSink A)).m_sink = w.m_sink
      ∧ ((w.setSource S none).record (.unregisterSink A)).log
          = w.log ++ [Call.unregisterSink A] := by
  refine ⟨?_, ?_, ?_, ?_, ?_⟩
  · simp [AudioSink.unregisterSource, hS, deref]
  · simp [World.setSource, World.record]
  · intro S2 h2
    simp [World.setSource, World.record, h2]
  · simp [World.setSource, World.record]
  · simp [World.setSource, World.record]

/-- Witness of C12: sink 0 linked to source 1, sources that ignore `unregisterSink`. -/
theorem C12_unregisterSource_order_witness :
    AudioSink.unregisterSource refusing 0 (World.linkedPair 0 1)
        = refusing.unregisterSink 1
            (((World.linkedPair 0 1).setSource 0 none).record (.unregisterSink 1))
      ∧ (((World.linkedPair 0 1).setSource 0 none).record (.unregisterSink 1)).m_source 0 = none
      ∧ (∀ S2, S2 ≠ 0 →
          (((World.linkedPair 0 1).setSource 0 none).record (.unregisterSink 1)).m_source S2
            = (World.linkedPair 0 1).m_source S2)
      ∧ (((World.linkedPair 0 1).setSource 0 none).record (.unregisterSink 1)).m_sink
          = (World.linkedPair 0 1).m_sink
      ∧ (((World.linkedPair 0 1).setSource 0 none).record (.unregisterSink 1)).log
          = (World.linkedPair 0 1).log ++ [Call.unregisterSink 1] :=
  C12_unregisterSource_order refusing 0 1 (World.linkedPair 0 1) rfl

/-- C13 (handshake order and termination): on an unlinked sink `S` with a
non-null candidate, for any behaviour of the sources, `S.registerSource` makes
the call `candidate.registerSink(S)` on the heap in which `m_source` of `S`
already is the candidate, and its result is decided by what that call returns.
A call `S.registerSource(candidate)` made while the candidate is stored returns
true with the heap, and so the log of calls on sources, unchanged.  With
mirrored sources of any call depth from 1 on, `registerSource` returns and the
log has grown by exactly the one call `candidate.registerSink(S)`. -/
theorem C13_registerSource_handshake (P : Sources) (S : SinkId) (candidate : SourceId)
    (w : World) (hS : w.m_source S = none) :
    ((w.setSource S (some candidate)).record (.registerSink candidate S)).m_source S
        = some candidate
      ∧ AudioSink.registerSource P S (some candidate) w
          = (match P.registerSink candidate S
              ((w.setSource S (some candidate)).record (.registerSink candidate S)) with
            | .error e => .error e
            | .ok (w2, accepted) =>
              if !accepted then .ok (w2.setSource S none, false) else .ok (w2, true))
      ∧ (∀ (Q : Sources) (w1 : World), w1.m_source S = some candidate →
          AudioSink.registerSource Q S (some candidate) w1 = .ok (w1, true))
      ∧ (∀ n : Nat, ∃ w' r,
          AudioSink.registerSource (mirrored (n + 1)) S (some candidate) w = .ok (w', r)
          ∧ w'.log = w.log ++ [Call.registerSink candidate S]) := by
  have h1 : (w.setSource S (some candidate)).m_source S = some candidate := by
    simp [World.setSource]
  refine ⟨by simp [World.setSource, World.record], ?_, ?_, ?_⟩
  · simp only [AudioSink.registerSource, hS, h1, deref]
    simp
  · intro Q w1 hw1
    rw [registerSource_of_linked Q S candidate (some candidate) w1 hw1]
    simp
  · intro n
    cases hA : w.m_sink candidate with
    | none =>
      exact ⟨_, true, registerSource_mirrored_free n S candidate w hS hA,
        by simp [World.setSource, World.setSink, World.record]⟩
    | some S2 =>
      by_cases hne : S2 = S
      · subst hne
        refine ⟨(w.setSource S2 (some candidate)).record (.registerSink candidate S2), true,
          ?_, by simp [World.setSource, World.record]⟩
        simp [AudioSink.registerSource, AudioSource.registerSink, mirrored, hS, hA, deref,
          World.setSource, World.record]
      · exact ⟨_, false, registerSource_mirrored_busy n S S2 candidate w hS hA hne,
          by simp [World.setSource, World.record]⟩

/-- Witness of C13: sink 0 of the initial heap and candidate 1. -/
theorem C13_registerSource_handshake_witness :
    ((World.init.setSource 0 (some 1)).record (.registerSink 1 0)).m_source 0 = some 1
      ∧ AudioSink.registerSource (mirrored 1) 0 (some 1) World.init
          = (match (mirrored 1).registerSink 1 0
              ((World.init.setSource 0 (some 1)).record (.registerSink 1 0)) with
            | .error e => .error e
            | .ok (w2, accepted) =>
              if !accepted then .ok (w2.setSource 0 none, false) else .ok (w2, true))
      ∧ (∀ (Q : Sources) (w1 : World), w1.m_source 0 = some 1 →
          AudioSink.registerSource Q 0 (some 1) w1 = .ok (w1, true))
      ∧ (∀ n : Nat, ∃ w' r,
          AudioSink.registerSource (mirrored (n + 1)) 0 (some 1) World.init = .ok (w', r)
          ∧ w'.log = World.init.log ++ [Call.registerSink 1 0]) :=
  C13_registerSource_handshake (mirrored 1) 0 1 World.init rfl

/-! ## Result and final state -/

/-- C14 (the result characterises the final state): for every sink `S`, heap
and non-null candidate such that the call `candidate.registerSink(S)` made by
`registerSource` leaves `m_source` of `S` as it found it, whenever
`S.registerSource(candidate)` returns, it returns true exactly when the linked
source of `S` is the candidate afterwards; and it returns whenever `S` is
linked or that call returns. -/
theorem C14_registerSource_result_iff_linked (P : Sources) (S : SinkId) (candidate : SourceId)
    (w : World)
    (hframe : ∀ w2 b, P.registerSink candidate S
        ((w.setSource S (some candidate)).record (.registerSink candidate S)) = .ok (w2, b) →
        w2.m_source S
          = ((w.setSource S (some candidate)).record (.registerSink candidate S)).m_source S) :
    (∀ w' r, AudioSink.registerSource P S (some candidate) w = .ok (w', r) →
        (r = true ↔ w'.m_source S = some candidate))
      ∧ ((w.m_source S ≠ none
            ∨ ∃ res, P.registerSink candidate S
                ((w.setSource S (some candidate)).record (.registerSink candidate S)) = .ok res) →
          ∃ w' r, AudioSink.registerSource P S (some candidate) w = .ok (w', r)) := by
  cases hS : w.m_source S with
  | some cur =>
    rw [registerSource_of_linked P S cur (some candidate) w hS]
    refine ⟨?_, fun _ => ⟨w, _, rfl⟩⟩
    intro w' r h
    simp only [Except.ok.injEq, Prod.mk.injEq] at h
    obtain ⟨hw, hr⟩ := h
    subst hw
    subst hr
    simp [hS]
  | none =>
    have h1 : (w.setSource S (some candidate)).m_source S = some candidate := by
      simp [World.setSource]
    have h2 : ((w.setSource S (some candidate)).record (.registerSink candidate S)).m_source S
        = some candidate := by
      simp [World.setSource, World.record]
    cases hp : P.registerSink candidate S
        ((w.setSource S (some candidate)).record (.registerSink candidate S)) with
    | error e =>
      have h : AudioSink.registerSource P S (some candidate) w = .error e := by
        simp [AudioSink.registerSource, hS, h1, deref, hp]
      rw [h]
      simp
    | ok res =>
      obtain ⟨w2, accepted⟩ := res
      have hf := hframe w2 accepted hp
      rw [h2] at hf
      cases accepted with
      | false =>
        have h : AudioSink.registerSource P S (some candidate) w
            = .ok (w2.setSource S none, false) := by
          simp [AudioSink.registerSource, hS, h1, deref, hp]
        rw [h]
        refine ⟨?_, fun _ => ⟨_, _, rfl⟩⟩
        intro w' r hr
        simp only [Except.ok.injEq, Prod.mk.injEq] at hr
        obtain ⟨hw, hb⟩ := hr
        subst hw
        subst hb
        simp [World.setSource]
      | true =>
        have h : AudioSink.registerSource P S (some candidate) w = .ok (w2, true) := by
          simp [AudioSink.registerSource, hS, h1, deref, hp]
        rw [h]
        refine ⟨?_, fun _ => ⟨_, _, rfl⟩⟩
        intro w' r hr
        simp only [Except.ok.injEq, Prod.mk.injEq] at hr
        obtain ⟨hw, hb⟩ := hr
        subst hw
        subst hb
        simp [hf]

/-- Witness of C14: sink 0 of the initial heap and candidate 1, sources that
refuse without touching the heap. -/
theorem C14_registerSource_result_iff_linked_witness :
    (∀ w' r, AudioSink.registerSource refusing 0 (some 1) World.init = .ok (w', r) →
        (r = true ↔ w'.m_source 0 = some 1))
      ∧ ((World.init.m_source 0 ≠ none
            ∨ ∃ res, refusing.registerSink 1 0
                ((World.init.setSource 0 (some 1)).record (.registerSink 1 0)) = .ok res) →
          ∃ w' r, AudioSink.registerSource refusing 0 (some 1) World.init = .ok (w', r)) :=
  C14_registerSource_result_iff_linked refusing 0 1 World.init (by
    intro w2 b h
    simp only [refusing, Except.ok.injEq, Prod.mk.injEq] at h
    rw [← h.1])

/-! ## Null safety -/

/-- C15 (null safety): for every sink `S`, heap and behaviour of the sources.
`unregisterSource()` fails to return only when `S` is linked to a source `A`
and the call `A.unregisterSink()` it makes fails to return;
`sourceResumeOutput()` and `sourceAllSamplesFlushed()` always return; and
`registerSource(candidate)` with a non-null candidate fails to return only
when `S` is unlinked and the call `candidate.registerSink(S)` it makes fails
to return.  So none of them makes a call through a null pointer.
`registerSource` of the null pointer makes a call through the null pointer
exactly when `S` is unlinked, and returns false with the heap unchanged when
`S` is linked. -/
theorem C15_null_safety (P : Sources) (S : SinkId) (w : World) :
    (∀ e, AudioSink.unregisterSource P S w = .error e ↔
        ∃ A, w.m_source S = some A
          ∧ P.unregisterSink A ((w.setSource S none).record (.unregisterSink A)) = .error e)
      ∧ (∃ w', AudioSink.sourceResumeOutput S w = .ok w')
      ∧ (∃ w', AudioSink.sourceAllSamplesFlushed S w = .ok w')
      ∧ (∀ candidate e, AudioSink.registerSource P S (some candidate) w = .error e ↔
          (w.m_source S = none
            ∧ P.registerSink candidate S
                ((w.setSource S (some candidate)).record (.registerSink candidate S))
                  = .error e))
      ∧ (AudioSink.registerSource P S none w = .error .nullDeref ↔ w.m_source S = none)
      ∧ (w.m_source S ≠ none → AudioSink.registerSource P S none w = .ok (w, false)) := by
  cases hS : w.m_source S with
  | none =>
    refine ⟨?_, ?_, ?_, ?_, ?_, ?_⟩
    · intro e
      simp [AudioSink.unregisterSource, hS]
    · exact ⟨w, by simp [AudioSink.sourceResumeOutput, hS]⟩
    · exact ⟨w, by simp [AudioSink.sourceAllSamplesFlushed, hS]⟩
    · intro candidate e
      have h1 : (w.setSource S (some candidate)).m_source S = some candidate := by
        simp [World.setSource]
      cases hp : P.registerSink candidate S
          ((w.setSource S (some candidate)).record (.registerSink candidate S)) with
      | error e2 => simp [AudioSink.registerSource, hS, h1, deref, hp]
      | ok res =>
        obtain ⟨w2, accepted⟩ := res
        cases accepted <;> simp [AudioSink.registerSource, hS, h1, deref, hp]
    · simp [registerSource_null P S w hS]
    · simp
  | some A =>
    refine ⟨?_, ?_, ?_, ?_, ?_, ?_⟩
    · intro e
      simp [AudioSink.unregisterSource, hS, deref]
    · exact ⟨_, sourceResumeOutput_linked S A w hS⟩
    · exact ⟨w.record (.allSamplesFlushed A), by
        simp [AudioSink.sourceAllSamplesFlushed, AudioSource.allSamplesFlushed, hS, deref]⟩
    · intro candidate e
      simp [registerSource_of_linked P S A (some candidate) w hS]
    · simp [registerSource_of_linked P S A none w hS]
    · intro _
      simp [registerSource_of_linked P S A none w hS]

/-! ## Unregistering twice -/

/-- C16 (unregistration is idempotent): for every sink `S`, heap and
behaviour of the sources such that the call of `unregisterSink` made by
`S.unregisterSource()` returns with `S` still unlinked: when
`unregisterSource()` returns, `S` is unlinked and a second
`unregisterSource()` returns the heap unchanged, pointers and log of calls on
sources alike; calling it twice in a row is the same as calling it once; and
it returns whenever `S` is unlinked or the call of `unregisterSink` returns. -/
theorem C16_unregisterSource_idempotent (P : Sources) (S : SinkId) (w : World)
    (hno : ∀ A w2, w.m_source S = some A →
        P.unregisterSink A ((w.setSource S none).record (.unregisterSink A)) = .ok w2 →
        w2.m_source S = none) :
    (∀ w', AudioSink.unregisterSource P S w = .ok w' →
        w'.m_source S = none ∧ AudioSink.unregisterSource P S w' = .ok w')
      ∧ (AudioSink.unregisterSource P S w >>= AudioSink.unregisterSource P S)
          = AudioSink.unregisterSource P S w
      ∧ ((w.m_source S = none
            ∨ ∃ A w2, w.m_source S = some A
                ∧ P.unregisterSink A ((w.setSource S none).record (.unregisterSink A)) = .ok w2) →
          ∃ w', AudioSink.unregisterSource P S w = .ok w') := by
  have hnoop : ∀ w1 : World, w1.m_source S = none → AudioSink.unregisterSource P S w1 = .ok w1 := by
    intro w1 h
    simp [AudioSink.unregisterSource, h]
  cases hS : w.m_source S with
  | none =>
    rw [hnoop w hS]
    refine ⟨?_, ?_, fun _ => ⟨w, rfl⟩⟩
    · intro w' h
      simp only [Except.ok.injEq] at h
      subst h
      exact ⟨hS, hnoop w hS⟩
    · show AudioSink.unregisterSource P S w = .ok w
      exact hnoop w hS
  | some A =>
    have hcall : AudioSink.unregisterSource P S w
        = P.unregisterSink A ((w.setSource S none).record (.unregisterSink A)) := by
      simp [AudioSink.unregisterSource, hS, deref]
    rw [hcall]
    cases hp : P.unregisterSink A ((w.setSource S none).record (.unregisterSink A)) with
    | error e =>
      refine ⟨?_, rfl, ?_⟩
      · intro w' h
        simp at h
      · intro h
        rcases h with h | ⟨A2, w2, hA2, h2⟩
        · simp at h
        · simp only [Option.some.injEq] at hA2
          subst hA2
          rw [hp] at h2
          simp at h2
    | ok w2 =>
      have hw2 : w2.m_source S = none := hno A w2 hS hp
      refine ⟨?_, ?_, fun _ => ⟨w2, rfl⟩⟩
      · intro w' h
        simp only [Except.ok.injEq] at h
        subst h
        exact ⟨hw2, hnoop _ hw2⟩
      · show AudioSink.unregisterSource P S w2 = .ok w2
        exact hnoop w2 hw2

/-- Witness of C16: sink 0 linked to source 1, all sources mirrored. -/
theorem C16_unregisterSource_idempotent_witness :
    (∀ w', AudioSink.unregisterSource (mirrored 1) 0 (World.linkedPair 0 1) = .ok w' →
        w'.m_source 0 = none ∧ AudioSink.unregisterSource (mirrored 1) 0 w' = .ok w')
      ∧ (AudioSink.unregisterSource (mirrored 1) 0 (World.linkedPair 0 1)
            >>= AudioSink.unregisterSource (mirrored 1) 0)
          = AudioSink.unregisterSource (mirrored 1) 0 (World.linkedPair 0 1)
      ∧ (((World.linkedPair 0 1).m_source 0 = none
            ∨ ∃ A w2, (World.linkedPair 0 1).m_source 0 = some A
                ∧ (mirrored 1).unregisterSink A
                    (((World.linkedPair 0 1).setSource 0 none).record (.unregisterSink A))
                      = .ok w2) →
          ∃ w', AudioSink.unregisterSource (mirrored 1) 0 (World.linkedPair 0 1) = .ok w') :=
  C16_unregisterSource_idempotent (mirrored 1) 0 (World.linkedPair 0 1) (by
    intro A w2 hA h
    have hA1 : A = 1 := by
      simpa [World.linkedPair, World.init, World.setSource, World.setSink] using hA.symm
    subst hA1
    simp only [mirrored, AudioSource.unregisterSink, AudioSink.unregisterSource,
      World.linkedPair, World.init, World.setSource, World.setSink, World.record] at h
    simp at h
    rw [← h]
    rfl)

end Svx
